import Mathlib

/-!
Verification development for the excuse-gen-app backend (src/excuse-gen-app/src/app.py).
The file shallowly embeds the data model and the LLM-response normalization /
fault-handling pipeline of the service: Pydantic request validation, the
prompt builder, the upstream payload envelope, and `call_databricks_llm`
(predictions-envelope check, content extraction, JSON parsing of the model
text, plain-text fallback, and the exception-to-HTTP mapping), together with
`generate_excuse`.  Python dictionaries, lists and strings are modelled by a
`PyVal` value type with Python-faithful subscript / membership / length
semantics; `json.loads` is modelled by a fuel-bounded JSON reader.
-/

namespace ExcuseApp

/-- JSON values, used both for the parsed upstream response document and for
the Python values flowing through `call_databricks_llm`.  Numbers are
modelled as integers (no claim touches non-integer JSON numbers). -/
inductive PyVal where
  | pyNone
  | pyBool (b : Bool)
  | pyInt (n : Int)
  | pyString (s : String)
  | pyList (elems : List PyVal)
  | pyDict (fields : List (String × PyVal))

/-- Python type name of a value, as reported in exception messages. -/
def pyTypeName : PyVal → String
  | PyVal.pyNone => "NoneType"
  | PyVal.pyBool _ => "bool"
  | PyVal.pyInt _ => "int"
  | PyVal.pyString _ => "str"
  | PyVal.pyList _ => "list"
  | PyVal.pyDict _ => "dict"

def PyVal.isDict : PyVal → Bool
  | PyVal.pyDict _ => true
  | _ => false

def PyVal.isList : PyVal → Bool
  | PyVal.pyList _ => true
  | _ => false

/-- Dictionary lookup (fields built by the JSON reader carry unique keys). -/
def dGet : List (String × PyVal) → String → Option PyVal
  | [], _ => none
  | (k2, v) :: rest, k => if k2 = k then some v else dGet rest k

def dHas (fields : List (String × PyVal)) (k : String) : Bool :=
  (dGet fields k).isSome

def dGetD (fields : List (String × PyVal)) (k : String) (d : PyVal) : PyVal :=
  (dGet fields k).getD d

/-- Insert-or-overwrite, matching Python dict semantics on duplicate JSON
object keys: the latest value wins, the key keeps its first position. -/
def dErase : List (String × PyVal) → String → List (String × PyVal)
  | [], _ => []
  | (k2, v) :: rest, k =>
      if k2 = k then dErase rest k else (k2, v) :: dErase rest k

/-- Prepend a member parsed before the members `rest`, with Python dict
semantics on duplicate JSON object keys: a duplicated key keeps its first
position but takes its last value. -/
def dConsMember (k : String) (v : PyVal) (rest : List (String × PyVal)) :
    List (String × PyVal) :=
  match dGet rest k with
  | some v2 => (k, v2) :: dErase rest k
  | none => (k, v) :: rest

/-- Generic positional index into a list. -/
def idx? {α : Type} : List α → Nat → Option α
  | [], _ => none
  | x :: _, 0 => some x
  | _ :: xs, n + 1 => idx? xs n

/-- Modelled Python exceptions raisable inside the response-handling block;
each carries the text `str(e)` would produce (exception messages are modelled
faithfully where a claim could observe them). -/
inductive PyExn where
  | httpExc (status_code : Nat) (detail : String)
  | typeError (msg : String)
  | keyError (msg : String)
  | indexError (msg : String)
  | attributeError (msg : String)

/-- Python `repr` of a string: quote selection plus escaping of backslash,
the quote character, and common control characters (non-printable and
non-ASCII escaping is not modelled; no theorem depends on it). -/
def pyEscChar (q : Char) (c : Char) : String :=
  if c = '\\' then "\\\\"
  else if c = q then String.mk ['\\', q]
  else if c = '\n' then "\\n"
  else if c = '\r' then "\\r"
  else if c = '\t' then "\\t"
  else String.mk [c]

def pyReprStr (s : String) : String :=
  let q : Char :=
    if s.data.contains '\'' && !(s.data.contains '"') then '"' else '\''
  String.mk [q] ++ String.join (s.data.map (pyEscChar q)) ++ String.mk [q]

-- Python `repr` of a JSON-shaped value (insertion-ordered dict display).
mutual

def pyRepr : PyVal → String
  | PyVal.pyNone => "None"
  | PyVal.pyBool true => "True"
  | PyVal.pyBool false => "False"
  | PyVal.pyInt n => toString n
  | PyVal.pyString s => pyReprStr s
  | PyVal.pyList xs => "[" ++ pyReprElems xs ++ "]"
  | PyVal.pyDict fs => "\x7b" ++ pyReprFields fs ++ "\x7d"

def pyReprElems : List PyVal → String
  | [] => ""
  | [x] => pyRepr x
  | x :: xs => pyRepr x ++ ", " ++ pyReprElems xs

def pyReprFields : List (String × PyVal) → String
  | [] => ""
  | [(k, v)] => pyReprStr k ++ ": " ++ pyRepr v
  | (k, v) :: fs => pyReprStr k ++ ": " ++ pyRepr v ++ ", " ++ pyReprFields fs

end

/-- Python `str()` of a JSON-shaped value: a string is returned verbatim,
anything else via `repr`. -/
def pyStr (j : PyVal) : String :=
  match j with
  | PyVal.pyString s => s
  | j => pyRepr j

/-- Subscript key: `v[k]` with a string or a (non-negative) integer key. -/
inductive PyKey where
  | str (k : String)
  | int (n : Nat)

/-- Python subscript `v[k]` on JSON-shaped values, with Python's exception
behaviour on each type mismatch. -/
def pyGetItem : PyVal → PyKey → Except PyExn PyVal
  | PyVal.pyDict fields, PyKey.str k =>
      match dGet fields k with
      | some v => Except.ok v
      | none => Except.error (PyExn.keyError (pyReprStr k))
  | PyVal.pyDict _, PyKey.int n => Except.error (PyExn.keyError (toString n))
  | PyVal.pyList xs, PyKey.int n =>
      match idx? xs n with
      | some v => Except.ok v
      | none => Except.error (PyExn.indexError "list index out of range")
  | PyVal.pyList _, PyKey.str _ =>
      Except.error (PyExn.typeError "list indices must be integers or slices, not str")
  | PyVal.pyString s, PyKey.int n =>
      match idx? s.data n with
      | some c => Except.ok (PyVal.pyString (String.mk [c]))
      | none => Except.error (PyExn.indexError "string index out of range")
  | PyVal.pyString _, PyKey.str _ =>
      Except.error (PyExn.typeError "string indices must be integers, not str")
  | v, _ =>
      Except.error
        (PyExn.typeError ("'" ++ pyTypeName v ++ "' object is not subscriptable"))

/-- Python membership test `s in v` for a string needle: key test on dicts,
element equality on lists, substring test on strings, `TypeError` otherwise. -/
def pyIn (s : String) : PyVal → Except PyExn Bool
  | PyVal.pyDict fields => Except.ok (dHas fields s)
  | PyVal.pyList xs =>
      Except.ok (xs.any (fun x =>
        match x with
        | PyVal.pyString t => t = s
        | _ => false))
  | PyVal.pyString t => Except.ok (decide (List.IsInfix s.data t.data))
  | v =>
      Except.error
        (PyExn.typeError
          ("argument of type '" ++ pyTypeName v ++ "' is not iterable"))

/-- Python `len(v)`. -/
def pyLen : PyVal → Except PyExn Nat
  | PyVal.pyString s => Except.ok s.data.length
  | PyVal.pyList xs => Except.ok xs.length
  | PyVal.pyDict fs => Except.ok fs.length
  | v =>
      Except.error
        (PyExn.typeError ("object of type '" ++ pyTypeName v ++ "' has no len()"))

/-- ASCII whitespace stripped by Python `str.strip()`. -/
def pyIsSpace (c : Char) : Bool :=
  c = ' ' || c = '\t' || c = '\n' || c = '\r' || c = '\x0b' || c = '\x0c'

def pyStrip (s : String) : String :=
  String.mk
    (((s.data.dropWhile pyIsSpace).reverse.dropWhile pyIsSpace).reverse)

/-- Python `s.split('\n')` on the character list: always at least one piece. -/
def splitLinesChars : List Char → List (List Char)
  | [] => [[]]
  | '\n' :: rest => [] :: splitLinesChars rest
  | c :: rest =>
      match splitLinesChars rest with
      | l :: ls => (c :: l) :: ls
      | [] => [[c]]

def pySplitLines (s : String) : List String :=
  (splitLinesChars s.data).map String.mk

/-- Python `'\n'.join(lines)`. -/
def pyJoinLines : List String → String
  | [] => ""
  | [s] => s
  | s :: rest => s ++ "\n" ++ pyJoinLines rest

/-- Leading JSON whitespace. -/
def skipWs : List Char → List Char
  | c :: cs =>
      if c = ' ' || c = '\t' || c = '\n' || c = '\r' then skipWs cs
      else c :: cs
  | [] => []

/-- The two-character escapes accepted inside a JSON string literal, paired
with the character each decodes to. -/
def escTable : List (Char × Char) :=
  [('"', '"'), ('\\', '\\'), ('/', '/'), ('n', '\n'), ('t', '\t'),
   ('r', '\r'), ('b', '\x08'), ('f', '\x0c')]

def unescapeChar (e : Char) : Option Char :=
  (escTable.find? (fun p => p.1 = e)).map Prod.snd

/-- Body of a JSON string literal after the opening quote; returns the
decoded characters and the remainder after the closing quote.  Unescaped
control characters are rejected as in `json.loads`; `\uXXXX` escapes are
outside the model (no claim exercises them). -/
def parseStrChars : List Char → Option (List Char × List Char)
  | [] => none
  | '"' :: rest => some ([], rest)
  | '\\' :: e :: rest =>
      match unescapeChar e with
      | some c =>
          match parseStrChars rest with
          | some (s, r) => some (c :: s, r)
          | none => none
      | none => none
  | c :: rest =>
      if c.toNat < 32 then none
      else
        match parseStrChars rest with
        | some (s, r) => some (c :: s, r)
        | none => none

def digitsToNat (ds : List Char) : Nat :=
  ds.foldl (fun acc c => acc * 10 + (c.toNat - 48)) 0

/-- Decimal digit run (integer JSON numbers only; fractional and exponent
forms are outside the model — no claim involves them). -/
def parseDigits (cs : List Char) : Option (Nat × List Char) :=
  let ds := cs.takeWhile Char.isDigit
  if ds.isEmpty then none else some (digitsToNat ds, cs.drop ds.length)

def parseNum : List Char → Option (PyVal × List Char)
  | '-' :: rest =>
      (parseDigits rest).map (fun p => (PyVal.pyInt (-(p.1 : Int)), p.2))
  | cs => (parseDigits cs).map (fun p => (PyVal.pyInt (p.1 : Int), p.2))

-- Fuel-bounded recursive-descent reader for JSON values; the fuel strictly
-- decreases on every call, and a linear amount suffices for any input.
mutual

def parseVal : Nat → List Char → Option (PyVal × List Char)
  | 0, _ => none
  | f + 1, cs =>
      match skipWs cs with
      | '"' :: rest =>
          (parseStrChars rest).map (fun p => (PyVal.pyString (String.mk p.1), p.2))
      | 'n' :: 'u' :: 'l' :: 'l' :: r => some (PyVal.pyNone, r)
      | 't' :: 'r' :: 'u' :: 'e' :: r => some (PyVal.pyBool true, r)
      | 'f' :: 'a' :: 'l' :: 's' :: 'e' :: r => some (PyVal.pyBool false, r)
      | '[' :: rest =>
          (match skipWs rest with
            | ']' :: r => some (PyVal.pyList [], r)
            | rest2 =>
                (parseElems f rest2).map (fun p => (PyVal.pyList p.1, p.2)))
      | '\x7b' :: rest =>
          (match skipWs rest with
            | '\x7d' :: r => some (PyVal.pyDict [], r)
            | rest2 =>
                (parseMembers f rest2).map (fun p => (PyVal.pyDict p.1, p.2)))
      | c :: rest =>
          if c = '-' || c.isDigit then parseNum (c :: rest) else none
      | [] => none

def parseElems : Nat → List Char → Option (List PyVal × List Char)
  | 0, _ => none
  | f + 1, cs =>
      (parseVal f cs).bind (fun p =>
        match skipWs p.2 with
        | ',' :: r =>
            (parseElems f r).map (fun q => (p.1 :: q.1, q.2))
        | ']' :: r => some ([p.1], r)
        | _ => none)

def parseMembers : Nat → List Char → Option (List (String × PyVal) × List Char)
  | 0, _ => none
  | f + 1, cs =>
      match skipWs cs with
      | '"' :: rest =>
          (parseStrChars rest).bind (fun kp =>
            match skipWs kp.2 with
            | ':' :: r =>
                (parseVal f r).bind (fun vp =>
                  match skipWs vp.2 with
                  | ',' :: r2 =>
                      (parseMembers f r2).map
                        (fun mp => (dConsMember (String.mk kp.1) vp.1 mp.1, mp.2))
                  | '\x7d' :: r2 => some ([(String.mk kp.1, vp.1)], r2)
                  | _ => none)
            | _ => none)
      | _ => none

end

/-- Model of `json.loads` on a text: a parsed JSON value, or `none` for a
`json.JSONDecodeError`. -/
def pyJsonLoads (s : String) : Option PyVal :=
  match parseVal (2 * s.data.length + 4) s.data with
  | some (v, rest) => if (skipWs rest).isEmpty then some v else none
  | none => none

/-- The validated request record (Pydantic model `ExcuseRequest`). -/
structure ExcuseRequest where
  category : String
  tone : String
  seriousness : Int
  recipient_name : String
  sender_name : String
  eta_when : String

/-- Pydantic construction of `ExcuseRequest`: `seriousness` carries
`Field(..., ge=1, le=5)`, so construction succeeds exactly when the value is
in the closed range 1..5 (`none` models the 422 `ValidationError`). -/
def mkExcuseRequest (category tone : String) (seriousness : Int)
    (recipient_name sender_name eta_when : String) : Option ExcuseRequest :=
  if 1 ≤ seriousness ∧ seriousness ≤ 5 then
    some ⟨category, tone, seriousness, recipient_name, sender_name, eta_when⟩
  else none

/-- The exact prompt f-string of `call_databricks_llm` (app.py lines 85-103);
the rendered text contains literal backslash-n sequences in the JSON example
because the Python source doubles those backslashes. -/
def buildPrompt (r : ExcuseRequest) : String :=
  "\nYou are an AI assistant that generates professional excuse emails. Generate a JSON response with \"subject\" and \"body\" fields.\n\nContext:\n- Category: " ++
  r.category ++ "\n- Tone: " ++ r.tone ++ "\n- Seriousness Level: " ++
  toString r.seriousness ++
  "/5 (1=very silly, 5=serious)\n- Recipient: " ++ r.recipient_name ++
  "\n- Sender: " ++ r.sender_name ++ "\n- ETA/When: " ++ r.eta_when ++
  "\n\nGenerate an email with:\n1. A professional subject line\n2. A complete email body with greeting, apology/excuse, reason, next step, and sign-off\n3. Match the tone and seriousness level appropriately\n\nRespond ONLY with valid JSON in this format:\n\x7b\"subject\": \"Subject Line\", \"body\": \"Dear [Recipient],\\n\\nEmail body content...\\n\\nBest regards,\\n[Sender]\"\x7d\n"

/-- The request payload of app.py lines 106-114: an object with a single
`dataframe_records` field holding a one-element list of a `messages`
envelope. -/
def buildPayload (r : ExcuseRequest) : PyVal :=
  PyVal.pyDict
    [("dataframe_records",
      PyVal.pyList
        [PyVal.pyDict
          [("messages",
            PyVal.pyList
              [PyVal.pyDict
                [("role", PyVal.pyString "user"),
                 ("content", PyVal.pyString (buildPrompt r))]])]])]

/-- The payload shape the spec describes for `UpstreamPayload`: a
single-element list containing an object with a `messages` field holding one
user-role message whose content is the rendered prompt.  Written from the
spec text for comparison with `buildPayload`. -/
def specUpstreamPayload (r : ExcuseRequest) : PyVal :=
  PyVal.pyList
    [PyVal.pyDict
      [("messages",
        PyVal.pyList
          [PyVal.pyDict
            [("role", PyVal.pyString "user"),
             ("content", PyVal.pyString (buildPrompt r))]])]]

/-- The fixed client timeout of `httpx.AsyncClient(timeout=30.0)`, in
seconds. -/
def clientTimeoutSeconds : Nat := 30

/-- A raised `fastapi.HTTPException`. -/
structure HTTPException where
  status_code : Nat
  detail : String

/-- The dictionary returned by `call_databricks_llm` on its success paths
(keys `subject`, `body`, `success`, `error`; the first two hold whatever
values the parsed model output supplied). -/
structure LLMResult where
  subject : PyVal
  body : PyVal
  success : Bool
  error : Option String

/-- Truthiness of the `DATABRICKS_API_TOKEN` environment value:
`not DATABRICKS_API_TOKEN` is true for an unset variable and for an empty
string. -/
def tokenTruthy : Option String → Bool
  | none => false
  | some s => !s.data.isEmpty

/-- The condition of app.py line 134:
`"predictions" in result and len(result["predictions"]) > 0`, with Python's
short-circuit `and` and exception behaviour. -/
def predsCond (result : PyVal) : Except PyExn Bool :=
  match pyIn "predictions" result with
  | Except.error e => Except.error e
  | Except.ok b =>
      if b then
        match pyGetItem result (PyKey.str "predictions") with
        | Except.error e => Except.error e
        | Except.ok v =>
            match pyLen v with
            | Except.error e => Except.error e
            | Except.ok n => Except.ok (decide (n > 0))
      else Except.ok false

/-- Content selection of app.py lines 137-149: candidate nesting first, then
the `content` and `text` keys, else `str(prediction)`. -/
def extractContent (prediction : PyVal) : Except PyExn PyVal :=
  match prediction with
  | PyVal.pyDict fields =>
      if dHas fields "candidates" then
        match pyGetItem (PyVal.pyDict fields) (PyKey.str "candidates") with
        | Except.error e => Except.error e
        | Except.ok c =>
            match pyGetItem c (PyKey.int 0) with
            | Except.error e => Except.error e
            | Except.ok c0 =>
                match pyGetItem c0 (PyKey.str "message") with
                | Except.error e => Except.error e
                | Except.ok m => pyGetItem m (PyKey.str "content")
      else if dHas fields "content" then
        pyGetItem (PyVal.pyDict fields) (PyKey.str "content")
      else if dHas fields "text" then
        pyGetItem (PyVal.pyDict fields) (PyKey.str "text")
      else Except.ok (PyVal.pyString (pyStr (PyVal.pyDict fields)))
  | p => Except.ok (PyVal.pyString (pyStr p))

/-- Raw model text of app.py lines 135-149: first prediction, content
selection, and the string requirement `json.loads` imposes on its argument
(a non-string content raises `TypeError`, caught only by the generic
handler). -/
def extractRaw (result : PyVal) : Except PyExn String :=
  match pyGetItem result (PyKey.str "predictions") with
  | Except.error e => Except.error e
  | Except.ok preds =>
      match pyGetItem preds (PyKey.int 0) with
      | Except.error e => Except.error e
      | Except.ok prediction =>
          match extractContent prediction with
          | Except.error e => Except.error e
          | Except.ok (PyVal.pyString s) => Except.ok s
          | Except.ok c =>
              Except.error
                (PyExn.typeError
                  ("the JSON object must be str, bytes or bytearray, not " ++
                    pyTypeName c))

/-- Message of the `AttributeError` raised by `parsed.get(...)` when
`json.loads` returned a non-dict value. -/
def noGetAttrMsg (parsed : PyVal) : String :=
  "'" ++ pyTypeName parsed ++ "' object has no attribute 'get'"

/-- Plain-text fallback of app.py lines 160-171: strip the content, split on
newlines, take the first line as the subject, join the remaining lines as
the body — or keep the whole (unstripped) content as the body when there
was a single line. -/
def fallbackResult (content : String) : LLMResult :=
  let lines := pySplitLines (pyStrip content)
  ⟨PyVal.pyString (List.headD lines "Excuse Email"),
   PyVal.pyString (if lines.length > 1 then pyJoinLines lines.tail else content),
   true, none⟩

/-- Response handling of app.py lines 134-176, as executed inside the `try`
block: envelope check, content extraction, JSON extraction of
`subject`/`body` with their defaults, and the plain-text line-splitting
fallback on a `JSONDecodeError`.  Any other exception (including the
`HTTPException` raised for a bad envelope) escapes as a `PyExn`. -/
def parseResponse (result : PyVal) : Except PyExn LLMResult :=
  match predsCond result with
  | Except.error e => Except.error e
  | Except.ok cond =>
      if cond then
        match extractRaw result with
        | Except.error e => Except.error e
        | Except.ok content =>
            match pyJsonLoads content with
            | some (PyVal.pyDict fields) =>
                Except.ok
                  ⟨dGetD fields "subject" (PyVal.pyString "Excuse Email"),
                   dGetD fields "body" (PyVal.pyString content), true, none⟩
            | some parsed =>
                Except.error (PyExn.attributeError (noGetAttrMsg parsed))
            | none => Except.ok (fallbackResult content)
      else
        Except.error
          (PyExn.httpExc 500 "Invalid response format from Databricks API")

/-- Text `str(e)` of a modelled Python exception (Starlette renders an
`HTTPException` as `"status: detail"`; the other messages were built repr-ed
already). -/
def pyStrExn : PyExn → String
  | PyExn.httpExc st d => toString st ++ ": " ++ d
  | PyExn.typeError m => m
  | PyExn.keyError m => m
  | PyExn.indexError m => m
  | PyExn.attributeError m => m

/-- Outcome of the single upstream HTTP round trip, as classified by the
`httpx` client: a 2xx reply with a parsed JSON body, a non-2xx status
(`raise_for_status` → `httpx.HTTPStatusError`), a timeout
(`httpx.TimeoutException`), or any other transport-level fault. -/
inductive HttpOutcome where
  | ok (body : PyVal)
  | httpError (status : Nat) (text : String)
  | timeout
  | transportFault (msg : String)

/-- app.py lines 76-195 (`call_databricks_llm`): missing-credential fast
path, then the `try`/`except` ladder.  `httpx.HTTPStatusError` propagates the
upstream status code, `httpx.TimeoutException` maps to 504, and every other
exception raised inside the `try` block — including the `HTTPException` for a
bad envelope, which the bare `except Exception` also catches — is re-raised
as a 500 with an `Unexpected error:` detail. -/
def call_databricks_llm (token : Option String) (r : ExcuseRequest)
    (net : HttpOutcome) : Except HTTPException LLMResult :=
  if tokenTruthy token then
    match net with
    | HttpOutcome.ok doc =>
        match parseResponse doc with
        | Except.ok res => Except.ok res
        | Except.error e =>
            Except.error ⟨500, "Unexpected error: " ++ pyStrExn e⟩
    | HttpOutcome.httpError st txt =>
        Except.error ⟨st, "Databricks API error: " ++ txt⟩
    | HttpOutcome.timeout =>
        Except.error ⟨504, "Timeout calling Databricks API"⟩
    | HttpOutcome.transportFault msg =>
        Except.error ⟨500, "Unexpected error: " ++ msg⟩
  else Except.error ⟨500, "DATABRICKS_API_TOKEN not configured"⟩

/-- app.py lines 198-212 (`generate_excuse`): calls `call_databricks_llm`
and re-raises its `HTTPException` unchanged (the handler's own generic
`except` is unreachable in this model because only `HTTPException` escapes
the call). -/
def generate_excuse (token : Option String) (r : ExcuseRequest)
    (net : HttpOutcome) : Except HTTPException LLMResult :=
  call_databricks_llm token r net

/-! Concrete inputs used to exercise the pipeline. -/

def req0 : ExcuseRequest := ⟨"work", "formal", 3, "Alice", "Bob", "noon"⟩

/-- The raw model text of the round-trip test case. -/
def rawSB : String := "\x7b\"subject\":\"S\",\"body\":\"B\"\x7d"

/-- The upstream document of the round-trip test case. -/
def doc3 : PyVal :=
  PyVal.pyDict [("predictions", PyVal.pyList [PyVal.pyDict [("content", PyVal.pyString rawSB)]])]

/-- The upstream document of the plain-text fallback test case. -/
def doc4 : PyVal :=
  PyVal.pyDict
    [("predictions",
      PyVal.pyList
        [PyVal.pyDict
          [("content", PyVal.pyString "Running Late\nSorry, traffic is bad.")]])]

/-- An upstream document whose raw text parses as non-object JSON. -/
def doc2 : PyVal :=
  PyVal.pyDict [("predictions", PyVal.pyList [PyVal.pyDict [("content", PyVal.pyString "[]")]])]

/-- An upstream document whose `predictions` field is a non-empty string
rather than an array. -/
def doc5 : PyVal := PyVal.pyDict [("predictions", PyVal.pyString "abc")]

/-- An upstream document with an ill-shaped (empty) `candidates` nesting. -/
def docBadCand : PyVal :=
  PyVal.pyDict [("predictions", PyVal.pyList [PyVal.pyDict [("candidates", PyVal.pyList [])]])]

/-- An upstream document whose extracted raw text is the empty string. -/
def docEmptyContent : PyVal :=
  PyVal.pyDict [("predictions", PyVal.pyList [PyVal.pyDict [("content", PyVal.pyString "")]])]

/-- An upstream document whose raw text is a JSON object with only a `body`
key. -/
def docBodyOnly : PyVal :=
  PyVal.pyDict
    [("predictions",
      PyVal.pyList [PyVal.pyDict [("content", PyVal.pyString "\x7b\"body\":\"only body\"\x7d")]])]

/-! Theorems. -/

/-- Every `Except.ok` produced by the response-handling block carries
`success = True` and `error = None` (both success paths of
`call_databricks_llm` build the dictionary that way). -/
theorem parseResponse_ok_fields (doc : PyVal) (res : LLMResult)
    (h : parseResponse doc = Except.ok res) :
    res.success = true ∧ res.error = none := by
  unfold parseResponse at h
  split at h
  · exact Except.noConfusion h
  · split at h
    · split at h
      · exact Except.noConfusion h
      · split at h
        · cases h; exact ⟨rfl, rfl⟩
        · exact Except.noConfusion h
        · cases h; exact ⟨rfl, rfl⟩
    · exact Except.noConfusion h

/-- C1 (counterexample): the upstream document whose first prediction has an
empty `content` string is normalized to a success whose `subject` and `body`
are both the empty string — the claimed non-emptiness invariant fails, and
the subject is not the "Excuse Email" placeholder either. -/
theorem c1_counterexample :
    parseResponse docEmptyContent =
      Except.ok ⟨PyVal.pyString "", PyVal.pyString "", true, none⟩ ∧
    ("" : String).data.length = 0 :=
  ⟨rfl, rfl⟩

/-- C1 (amended): the "Excuse Email" placeholder is substituted exactly on
the JSON path — whenever the extracted raw text parses as a JSON object
without a `subject` key, normalization succeeds with subject "Excuse Email"
(and the `body` key's value, defaulting to the raw text).  The non-emptiness
invariant does not hold: the plain-text fallback copies the first stripped
line into `subject` verbatim, so an empty raw text yields an empty subject
and body. -/
theorem c1_subject_placeholder (doc : PyVal) (raw : String)
    (fields : List (String × PyVal))
    (hp : predsCond doc = Except.ok true)
    (hr : extractRaw doc = Except.ok raw)
    (hj : pyJsonLoads raw = some (PyVal.pyDict fields))
    (hs : dGet fields "subject" = none) :
    parseResponse doc =
      Except.ok
        ⟨PyVal.pyString "Excuse Email", dGetD fields "body" (PyVal.pyString raw),
         true, none⟩ := by
  simp only [parseResponse, hp, hr, hj, if_true, dGetD, hs, Option.getD]

/-- Witness for C1 at the spec's own defaulting example: content
`{"body":"only body"}` yields subject "Excuse Email". -/
theorem c1_subject_placeholder_witness :
    parseResponse docBodyOnly =
      Except.ok ⟨PyVal.pyString "Excuse Email", PyVal.pyString "only body", true, none⟩ :=
  c1_subject_placeholder docBodyOnly "\x7b\"body\":\"only body\"\x7d"
    [("body", PyVal.pyString "only body")] rfl rfl rfl rfl

/-- C2 (counterexample): a raw text that parses as non-object JSON (here
`"[]"`) is propagated as an error — `parsed.get` raises `AttributeError`,
the bare `except Exception` turns it into a 500 — so normalization does not
always succeed below the `predictions` level. -/
theorem c2_counterexample :
    call_databricks_llm (some "t") req0 (HttpOutcome.ok doc2) =
      Except.error ⟨500, "Unexpected error: 'list' object has no attribute 'get'"⟩ :=
  rfl

/-- C2 (amended): below the `predictions` level the fallback covers exactly
the `json.JSONDecodeError` case: normalization succeeds whenever the raw
text fails to parse as JSON, and whenever it parses as a JSON object; but a
raw text parsing as non-object JSON raises `AttributeError`, and an
ill-shaped `candidates` nesting raises (e.g. `IndexError` on an empty
candidates list) — both are propagated as internal errors rather than
falling back. -/
theorem c2_fallback_coverage :
    (∀ doc raw, predsCond doc = Except.ok true →
      extractRaw doc = Except.ok raw → pyJsonLoads raw = none →
      ∃ res, parseResponse doc = Except.ok res) ∧
    (∀ doc raw fields, predsCond doc = Except.ok true →
      extractRaw doc = Except.ok raw →
      pyJsonLoads raw = some (PyVal.pyDict fields) →
      ∃ res, parseResponse doc = Except.ok res) ∧
    (∀ doc raw parsed, predsCond doc = Except.ok true →
      extractRaw doc = Except.ok raw → pyJsonLoads raw = some parsed →
      parsed.isDict = false →
      parseResponse doc =
        Except.error (PyExn.attributeError (noGetAttrMsg parsed))) ∧
    parseResponse docBadCand =
      Except.error (PyExn.indexError "list index out of range") := by
  refine ⟨?_, ?_, ?_, rfl⟩
  · intro doc raw hp hr hj
    exact ⟨fallbackResult raw, by simp only [parseResponse, hp, hr, hj, if_true]⟩
  · intro doc raw fields hp hr hj
    exact ⟨⟨dGetD fields "subject" (PyVal.pyString "Excuse Email"),
            dGetD fields "body" (PyVal.pyString raw), true, none⟩,
          by simp only [parseResponse, hp, hr, hj, if_true]⟩
  · intro doc raw parsed hp hr hj hno
    cases parsed <;>
      first
      | exact Bool.noConfusion hno
      | simp only [parseResponse, hp, hr, hj, if_true]

/-- Witness for C2 at the non-object raw text `"[]"`. -/
theorem c2_fallback_coverage_witness :
    parseResponse doc2 =
      Except.error (PyExn.attributeError "'list' object has no attribute 'get'") :=
  c2_fallback_coverage.2.2.1 doc2 "[]" (PyVal.pyList []) rfl rfl rfl rfl

/-- C3: when the raw text parses as a JSON object containing `subject`
and/or `body` keys, normalization succeeds with that subject (default
"Excuse Email") and that body (default: the raw text itself). -/
theorem c3_json_round_trip (doc : PyVal) (raw : String)
    (fields : List (String × PyVal))
    (hp : predsCond doc = Except.ok true)
    (hr : extractRaw doc = Except.ok raw)
    (hj : pyJsonLoads raw = some (PyVal.pyDict fields))
    (_hk : (dHas fields "subject" || dHas fields "body") = true) :
    parseResponse doc =
      Except.ok
        ⟨dGetD fields "subject" (PyVal.pyString "Excuse Email"),
         dGetD fields "body" (PyVal.pyString raw), true, none⟩ := by
  simp only [parseResponse, hp, hr, hj, if_true]

/-- Witness for C3 at the spec's round-trip document
`{"predictions":[{"content":"{\"subject\":\"S\",\"body\":\"B\"}"}]}`. -/
theorem c3_json_round_trip_witness :
    parseResponse doc3 =
      Except.ok ⟨PyVal.pyString "S", PyVal.pyString "B", true, none⟩ :=
  c3_json_round_trip doc3 rawSB
    [("subject", PyVal.pyString "S"), ("body", PyVal.pyString "B")] rfl rfl rfl rfl

/-- C4: when the raw text fails to parse as JSON, the plain-text fallback
succeeds with the first stripped line as subject (placeholder if the split
produced no lines) and the remaining lines joined by newlines as body, the
body being the full raw text when there was only one line. -/
theorem c4_plain_text_fallback (doc : PyVal) (raw : String)
    (hp : predsCond doc = Except.ok true)
    (hr : extractRaw doc = Except.ok raw)
    (hj : pyJsonLoads raw = none) :
    parseResponse doc =
      Except.ok
        ⟨PyVal.pyString (List.headD (pySplitLines (pyStrip raw)) "Excuse Email"),
         PyVal.pyString
           (if (pySplitLines (pyStrip raw)).length > 1 then
              pyJoinLines (pySplitLines (pyStrip raw)).tail
            else raw),
         true, none⟩ := by
  simp only [parseResponse, hp, hr, hj, if_true, fallbackResult]

/-- Witness for C4 at the spec's fallback document
`{"predictions":[{"content":"Running Late\nSorry, traffic is bad."}]}`. -/
theorem c4_plain_text_fallback_witness :
    parseResponse doc4 =
      Except.ok
        ⟨PyVal.pyString "Running Late", PyVal.pyString "Sorry, traffic is bad.",
         true, none⟩ :=
  c4_plain_text_fallback doc4 "Running Late\nSorry, traffic is bad." rfl rfl rfl

/-- C5 (counterexample): a document whose `predictions` field is the
non-array string "abc" — so it lacks a top-level array field named
`predictions` — is not rejected: `len("abc") > 0` passes the check and the
call succeeds (with the string's first character as subject and body). -/
theorem c5_counterexample :
    call_databricks_llm (some "t") req0 (HttpOutcome.ok doc5) =
      Except.ok ⟨PyVal.pyString "a", PyVal.pyString "a", true, none⟩ ∧
    (PyVal.pyString "abc").isList = false :=
  ⟨rfl, rfl⟩

/-- C5 (amended): whenever the envelope check
`"predictions" in result and len(result["predictions"]) > 0` does not pass
(the key is missing, the value is empty, or the check itself raises), the
outcome is a failure with internal-error status 500 and never a success;
but the check does not require `predictions` to be an array, so a non-empty
non-array value (e.g. a string) passes it. -/
theorem c5_envelope_failure (token : Option String) (r : ExcuseRequest)
    (doc : PyVal) (ht : tokenTruthy token = true)
    (hc : predsCond doc ≠ Except.ok true) :
    ∃ e, call_databricks_llm token r (HttpOutcome.ok doc) = Except.error e ∧
      e.status_code = 500 := by
  cases hpc : predsCond doc with
  | error e =>
      refine ⟨⟨500, "Unexpected error: " ++ pyStrExn e⟩, ?_, rfl⟩
      simp only [call_databricks_llm, ht, if_true, parseResponse, hpc]
  | ok b =>
      cases b with
      | true => exact absurd hpc hc
      | false =>
          refine ⟨⟨500, "Unexpected error: " ++
            pyStrExn (PyExn.httpExc 500 "Invalid response format from Databricks API")⟩,
            ?_, rfl⟩
          simp only [call_databricks_llm, ht, if_true, parseResponse, hpc]
          rfl

/-- Witness for C5 at the spec's two envelope-failure inputs `{}` and
`{"predictions":[]}`. -/
theorem c5_envelope_failure_witness :
    (∃ e, call_databricks_llm (some "t") req0 (HttpOutcome.ok (PyVal.pyDict [])) =
      Except.error e ∧ e.status_code = 500) ∧
    (∃ e, call_databricks_llm (some "t") req0
        (HttpOutcome.ok (PyVal.pyDict [("predictions", PyVal.pyList [])])) =
      Except.error e ∧ e.status_code = 500) :=
  ⟨c5_envelope_failure (some "t") req0 (PyVal.pyDict []) rfl
      (fun h => Bool.noConfusion (Except.ok.inj h)),
   c5_envelope_failure (some "t") req0 (PyVal.pyDict [("predictions", PyVal.pyList [])]) rfl
      (fun h => Bool.noConfusion (Except.ok.inj h))⟩

/-- C6 (counterexample): with the credential absent the call fails with
status 500, the internal-error class, not the service-unavailable class
(503) the claim names. -/
theorem c6_counterexample :
    call_databricks_llm none req0 HttpOutcome.timeout =
      Except.error ⟨500, "DATABRICKS_API_TOKEN not configured"⟩ ∧
    (500 : Nat) ≠ 503 :=
  ⟨rfl, by decide⟩

/-- C6 (amended): whenever the bearer credential is falsy (unset or empty),
every generation attempt fails deterministically with the fixed
configuration-error message and status 500 (internal-error class, not
service-unavailable), independently of the network outcome — i.e. before
any network call is attempted — and distinct from transport failures. -/
theorem c6_missing_credential (token : Option String) (r : ExcuseRequest)
    (net : HttpOutcome) (ht : tokenTruthy token = false) :
    call_databricks_llm token r net =
      Except.error ⟨500, "DATABRICKS_API_TOKEN not configured"⟩ := by
  simp only [call_databricks_llm, ht, Bool.false_eq_true, if_false]

/-- Witness for C6 with an unset token and a network that would have timed
out. -/
theorem c6_missing_credential_witness :
    call_databricks_llm none req0 HttpOutcome.timeout =
      Except.error ⟨500, "DATABRICKS_API_TOKEN not configured"⟩ :=
  c6_missing_credential none req0 HttpOutcome.timeout rfl

/-- C7: a non-2xx upstream reply fails with the upstream's own status code
(`httpx.HTTPStatusError` handler), a timeout of the fixed 30-second client
bound fails with 504 (gateway-timeout class, `httpx.TimeoutException`
handler), and neither outcome is a partially-populated success. -/
theorem c7_http_error_and_timeout (token : Option String) (r : ExcuseRequest)
    (st : Nat) (txt : String) (ht : tokenTruthy token = true) :
    call_databricks_llm token r (HttpOutcome.httpError st txt) =
      Except.error ⟨st, "Databricks API error: " ++ txt⟩ ∧
    call_databricks_llm token r HttpOutcome.timeout =
      Except.error ⟨504, "Timeout calling Databricks API"⟩ ∧
    clientTimeoutSeconds = 30 := by
  refine ⟨?_, ?_, rfl⟩ <;> simp only [call_databricks_llm, ht, if_true]

/-- Witness for C7 at a 429 upstream reply. -/
theorem c7_http_error_and_timeout_witness :
    call_databricks_llm (some "t") req0 (HttpOutcome.httpError 429 "slow down") =
      Except.error ⟨429, "Databricks API error: slow down"⟩ ∧
    call_databricks_llm (some "t") req0 HttpOutcome.timeout =
      Except.error ⟨504, "Timeout calling Databricks API"⟩ ∧
    clientTimeoutSeconds = 30 :=
  c7_http_error_and_timeout (some "t") req0 429 "slow down" rfl

/-- C8 (counterexample): the JSON body actually sent is not the
single-element list the claim describes — it is an object (its `isArr` is
false), so it differs from the spec-described payload shape. -/
theorem c8_counterexample :
    buildPayload req0 ≠ specUpstreamPayload req0 ∧
    (buildPayload req0).isList = false ∧
    (specUpstreamPayload req0).isList = true := by
  refine ⟨fun h => ?_, rfl, rfl⟩
  exact Bool.noConfusion (congrArg PyVal.isList h)

/-- C8 (amended): for every request, the JSON body sent to the inference
endpoint is an object with a single `dataframe_records` field whose value is
exactly the single-element list the spec describes (one object with a
`messages` field holding one user-role message whose content is the rendered
prompt). -/
theorem c8_payload_envelope (r : ExcuseRequest) :
    buildPayload r = PyVal.pyDict [("dataframe_records", specUpstreamPayload r)] :=
  rfl

/-- C9: Pydantic construction of an `ExcuseRequest` succeeds exactly when
seriousness is in the closed range 1..5 — in particular 1 and 5 are
accepted while 0 and 6 are rejected — and an accepted value is stored
unchanged, never clamped. -/
theorem c9_seriousness_validation :
    (∀ c t (s : Int) rn sn ew,
      (mkExcuseRequest c t s rn sn ew).isSome =
        (decide (1 ≤ s) && decide (s ≤ 5))) ∧
    (∀ c t (s : Int) rn sn ew req,
      mkExcuseRequest c t s rn sn ew = some req → req.seriousness = s) ∧
    (mkExcuseRequest "a" "b" 1 "c" "d" "e").isSome = true ∧
    (mkExcuseRequest "a" "b" 5 "c" "d" "e").isSome = true ∧
    (mkExcuseRequest "a" "b" 0 "c" "d" "e").isSome = false ∧
    (mkExcuseRequest "a" "b" 6 "c" "d" "e").isSome = false := by
  refine ⟨?_, ?_, by decide, by decide, by decide, by decide⟩
  · intro c t s rn sn ew
    unfold mkExcuseRequest
    by_cases h : 1 ≤ s ∧ s ≤ 5
    · rw [if_pos h]
      simp [h.1, h.2]
    · rw [if_neg h]
      rcases not_and_or.mp h with h1 | h1 <;> simp [h1]
  · intro c t s rn sn ew req h
    unfold mkExcuseRequest at h
    split at h
    · cases h; rfl
    · exact Option.noConfusion h

/-- Witness for C9: an accepted seriousness value 3 is stored unchanged. -/
theorem c9_seriousness_validation_witness :
    (ExcuseRequest.mk "a" "b" 3 "c" "d" "e").seriousness = 3 :=
  c9_seriousness_validation.2.1 "a" "b" 3 "c" "d" "e"
    (ExcuseRequest.mk "a" "b" 3 "c" "d" "e") rfl

/-- C10: every response body the generate-excuse operation returns has
`success = True` and `error = None`; the failure-signalling fields of the
response shape are never used because every failure is surfaced as a raised
`HTTPException`. -/
theorem c10_success_flags (token : Option String) (r : ExcuseRequest)
    (net : HttpOutcome) (res : LLMResult)
    (h : generate_excuse token r net = Except.ok res) :
    res.success = true ∧ res.error = none := by
  unfold generate_excuse call_databricks_llm at h
  split at h
  · cases net with
    | ok doc =>
        simp only [] at h
        cases hpr : parseResponse doc with
        | ok res2 =>
            rw [hpr] at h
            simp only [] at h
            cases h
            exact parseResponse_ok_fields doc _ hpr
        | error e =>
            rw [hpr] at h
            simp only [] at h
            exact Except.noConfusion h
    | httpError st txt => exact Except.noConfusion h
    | timeout => exact Except.noConfusion h
    | transportFault m => exact Except.noConfusion h
  · exact Except.noConfusion h

/-- Witness for C10 at the round-trip document. -/
theorem c10_success_flags_witness :
    (LLMResult.mk (PyVal.pyString "S") (PyVal.pyString "B") true none).success = true ∧
    (LLMResult.mk (PyVal.pyString "S") (PyVal.pyString "B") true none).error = none :=
  c10_success_flags (some "t") req0 (HttpOutcome.ok doc3)
    (LLMResult.mk (PyVal.pyString "S") (PyVal.pyString "B") true none) rfl

end ExcuseApp
